import Mathlib

/-!
Shallow embedding of the resilience/observability core of the atom-bot-mini
repository: severity classification, alert throttling with cooldown, the
bounded error tracker, the retry executor and the health-check registry.
Each definition is translated directly from the JavaScript source
(src/core/logger.js, src/core/healthMonitor.js, src/services/email.js and
the errorHandler / CommandWrapper modules). JavaScript Maps are modelled as
insertion-ordered association lists; timestamps are Nat milliseconds;
external collaborators (the SMTP transport, probe targets) appear as
boolean parameters describing their observable behaviour, as the spec
treats them as excluded collaborators with a boolean contract.
-/

namespace AtomBot

/-- Character-list helper for the substring test: true when the needle
occurs contiguously in the haystack. -/
def includesAux (needle : List Char) : List Char → Bool
  | [] => needle.isEmpty
  | c :: t => needle.isPrefixOf (c :: t) || includesAux needle t

/-- Substring test, modelling the JavaScript expression
`string.includes(needle)`. -/
def includes (s needle : String) : Bool :=
  includesAux needle.toList s.toList

/-- Model of a JavaScript error code: in the source, `error.code` is
compared both against strings (Node network codes such as ECONNREFUSED)
and against numeric Discord API codes; a string never equals a number. -/
inductive ErrCode where
  | str (s : String)
  | num (n : Nat)
deriving DecidableEq

/-- Model of a JavaScript Error as consumed by the error handler: a name,
a message, and an optional code. -/
structure JsError where
  name : String
  message : String
  code : Option ErrCode
deriving DecidableEq

/-- Severity levels produced by the classifier. The source represents
them as the strings low, medium, high, critical used to index the logger
method table. -/
inductive Severity where
  | low
  | medium
  | high
  | critical
deriving DecidableEq

/-- Domains in which an error can be handled, one per `handle*Error`
method of ErrorHandler: command, service, database, and the platform
(Discord) API. -/
inductive Domain where
  | command
  | service
  | database
  | platformApi
deriving DecidableEq

/-- Translation of `ErrorHandler.determineErrorSeverity`: the generic,
first-match-wins text/code rule set used for the command and service
domains. The second source parameter named context is unused by the
source body and is omitted here. -/
def determineErrorSeverity (e : JsError) : Severity :=
  if includes e.message "Database not initialized"
      || includes e.message "Discord client not ready"
      || includes e.message "Permission denied"
      || e.code == some (.str "ECONNREFUSED")
      || e.code == some (.str "ENOTFOUND") then
    .critical
  else if includes e.message "Invalid"
      || includes e.message "Missing"
      || includes e.message "Required"
      || e.code == some (.num 50013)
      || e.code == some (.num 50001) then
    .high
  else if includes e.message "Not found"
      || includes e.message "Already exists"
      || e.code == some (.num 10008) then
    .medium
  else
    .low

/-- Translation of `ErrorHandler.determineDiscordErrorSeverity`: severity
for platform-API errors, decided purely by the numeric code. -/
def determineDiscordErrorSeverity (e : JsError) : Severity :=
  if e.code == some (.num 50001)
      || e.code == some (.num 50013)
      || e.code == some (.num 50035)
      || e.code == some (.num 50036) then
    .critical
  else if e.code == some (.num 10008)
      || e.code == some (.num 10062)
      || e.code == some (.num 10015) then
    .high
  else if e.code == some (.num 429) then
    .medium
  else
    .low

/-- Severity with which each ErrorHandler entry point logs an error:
`handleCommandError` and `handleServiceError` call
`determineErrorSeverity`; `handleDatabaseError` calls `logger.critical`
unconditionally; `handleDiscordError` calls
`determineDiscordErrorSeverity`. -/
def handlerSeverity (e : JsError) : Domain → Severity
  | .command => determineErrorSeverity e
  | .service => determineErrorSeverity e
  | .database => .critical
  | .platformApi => determineDiscordErrorSeverity e

/-- Insertion-ordered association list standing for a JavaScript Map:
`set` replaces the value in place when the key is already present and
appends a new entry otherwise, preserving iteration order exactly as a
JS Map does. -/
def jsMapSet {α : Type} (m : List (String × α)) (k : String) (v : α) :
    List (String × α) :=
  if m.any (fun p => p.1 == k) then
    m.map (fun p => if p.1 == k then (k, v) else p)
  else
    m ++ [(k, v)]

/-- Deletion from the JS-Map model: removes the entry carrying the key
(keys are unique in a JS Map, so filtering is exact). -/
def jsMapDelete {α : Type} (m : List (String × α)) (k : String) :
    List (String × α) :=
  m.filter (fun p => p.1 != k)

/-- Lookup with the JavaScript default idiom `map.get(key) || 0`. -/
def jsMapGetD (m : List (String × Nat)) (k : String) : Nat :=
  (m.lookup k).getD 0

/-- Translation of `Logger.getErrorKey`: the throttling fingerprint is
the context tag, the severity and the first 50 characters of the
message, colon separated. Context and severity are passed already
defaulted (the source defaults them to general and medium). -/
def getErrorKey (message context severity : String) : String :=
  context ++ ":" ++ severity ++ ":" ++ message.take 50

/-- Mutable state of the Logger singleton relevant to throttling:
the per-fingerprint occurrence counters, the per-fingerprint timestamp
of the last admin notification, and the cooldown (source default five
minutes in milliseconds). -/
structure LoggerState where
  errorCounts : List (String × Nat)
  lastAdminNotification : List (String × Nat)
  adminNotificationCooldown : Nat
deriving DecidableEq

/-- Fresh Logger state as built by the Logger constructor. -/
def initLoggerState : LoggerState :=
  { errorCounts := []
    lastAdminNotification := []
    adminNotificationCooldown := 5 * 60 * 1000 }

/-- State of the EmailService singleton: whether a transporter has been
configured. -/
structure EmailState where
  isConfigured : Bool
deriving DecidableEq

/-- Translation of `EmailService.initialize`. The boolean `envOk`
abstracts the external environment and SMTP library: it is true when
EMAIL and EMAIL_PASSWORD are set and transporter construction succeeds,
in which case the service marks itself configured; otherwise the state
is unchanged and initialization reports failure. -/
def EmailService.initEmail (es : EmailState) (envOk : Bool) : EmailState :=
  if envOk then { isConfigured := true } else es

/-- Translation of `EmailService.sendNotification`: returns false
without sending when not configured; otherwise the boolean `transportOk`
abstracts the external SMTP transport result. The source never throws
from this method (failures are caught and become false). -/
def EmailService.sendNotification (es : EmailState) (transportOk : Bool) :
    Bool :=
  es.isConfigured && transportOk

/-- Observable outcome of one `handleAdminNotification` call:
suppressed by the cooldown, dispatched through the sink (with the
delivery result of the sink), or past the cooldown but with the sink
unconfigured so nothing could be sent. -/
inductive NotifyOutcome where
  | suppressed
  | sent (delivered : Bool)
  | notConfigured
deriving DecidableEq

/-- Translation of `Logger.handleAdminNotification`. Checks the
cooldown against the last notification time for the fingerprint
(absent entries default to 0); on suppression returns immediately with
no state change. Otherwise it increments the occurrence counter and
records `lastNotified = now` before consulting the email sink:
initialising it if unconfigured, then sending when configured. -/
def handleAdminNotification (st : LoggerState) (es : EmailState)
    (envOk transportOk : Bool) (message context severity : String)
    (now : Nat) : LoggerState × EmailState × NotifyOutcome :=
  let errorKey := getErrorKey message context severity
  let lastNotification := jsMapGetD st.lastAdminNotification errorKey
  if now - lastNotification < st.adminNotificationCooldown then
    (st, es, .suppressed)
  else
    let errorCount := jsMapGetD st.errorCounts errorKey + 1
    let st' : LoggerState :=
      { st with
        errorCounts := jsMapSet st.errorCounts errorKey errorCount
        lastAdminNotification := jsMapSet st.lastAdminNotification errorKey now }
    let es' := if !es.isConfigured then EmailService.initEmail es envOk else es
    if es'.isConfigured then
      (st', es', .sent (EmailService.sendNotification es' transportOk))
    else
      (st', es', .notConfigured)

/-- Options object accepted by `Logger.error`, already defaulted the way
the severity helper methods (critical/high/medium/low) build it. -/
structure ErrorOptions where
  notifyAdmin : Bool
  severity : String
  context : String
deriving DecidableEq

/-- Eligibility test from `Logger.error`: an admin notification is
attempted exactly when notifyAdmin is set or the severity is critical
or high. -/
def notificationEligible (opts : ErrorOptions) : Bool :=
  opts.notifyAdmin || opts.severity == "critical" || opts.severity == "high"

/-- Translation of the admin-notification path of `Logger.error`:
when the options are notification eligible it runs
`handleAdminNotification`, otherwise it only writes to the console and
the throttling state is untouched (outcome none). -/
def logError (st : LoggerState) (es : EmailState)
    (envOk transportOk : Bool) (message : String) (opts : ErrorOptions)
    (now : Nat) : LoggerState × EmailState × Option NotifyOutcome :=
  if notificationEligible opts then
    let r := handleAdminNotification st es envOk transportOk
      message opts.context opts.severity now
    (r.1, r.2.1, some r.2.2)
  else
    (st, es, none)

/-- Translation of the key expression of
`ErrorHandler.trackErrorContext`: the tracking key is the error name
and the first 50 characters of the message, colon separated. -/
def trackKey (e : JsError) : String :=
  e.name ++ ":" ++ e.message.take 50

/-- Payload stored per tracked error by `trackErrorContext`: an ISO
timestamp string, the caller-supplied context, and the stack trace,
all modelled as strings. -/
structure ContextData where
  timestamp : String
  context : String
  stack : String
deriving DecidableEq

/-- Translation of `ErrorHandler.trackErrorContext`: store the context
data under the tracking key, then, when the map holds more than 100
entries, delete the insertion-oldest key. -/
def trackErrorContext (m : List (String × ContextData)) (e : JsError)
    (data : ContextData) : List (String × ContextData) :=
  let m' := jsMapSet m (trackKey e) data
  if 100 < m'.length then
    match m' with
    | [] => m'
    | (firstKey, _) :: _ => jsMapDelete m' firstKey
  else
    m'

/-- Result shape of `ErrorHandler.getErrorStats`. -/
structure ErrorStats where
  totalErrors : Nat
  errorsByType : List (String × Nat)
  recentErrors : List (String × ContextData)
deriving DecidableEq

/-- Error-type component of a tracking key: the text before the first
colon, modelling `key.split(':')[0]`. -/
def errorTypeOf (key : String) : String :=
  (key.splitOn ":").headD ""

/-- Translation of `ErrorHandler.getErrorStats`: a pure read of the
errorContexts map reporting its size, per-type counts accumulated in
iteration order, and the first ten entries as recent errors. -/
def getErrorStats (m : List (String × ContextData)) : ErrorStats :=
  { totalErrors := m.length
    errorsByType :=
      m.foldl (fun acc p =>
        let t := errorTypeOf p.1
        jsMapSet acc t (jsMapGetD acc t + 1)) []
    recentErrors := (m.take 10).map (fun p => (errorTypeOf p.1, p.2)) }

/-- Iterated recording used to state the idempotence property: record
the same error n times, with `ds i` the context data supplied on the
i-th call, starting from the empty tracker. -/
def trackN (e : JsError) (ds : Nat → ContextData) : Nat →
    List (String × ContextData)
  | 0 => []
  | n + 1 => trackErrorContext (trackN e ds n) e (ds n)

/-- Loop body of `CommandWrapper.withRetry`. The operation is modelled
as a function from the attempt index to an Except result (each attempt
may succeed or fail with an error value). `attempt` is the current loop
index and `remaining` counts the attempts still allowed after this one,
so `remaining = maxRetries - attempt`; the source throws when
`attempt === maxRetries` or when `shouldRetry(error)` is false, and
otherwise waits `delay` milliseconds and retries. The result carries
the propagated value, the total number of attempts performed, and the
total time spent waiting between attempts. -/
def retryLoop {ε α : Type} (op : Nat → Except ε α) (shouldRetry : ε → Bool)
    (delay : Nat) : Nat → Nat → Except ε α × Nat × Nat
  | attempt, remaining =>
    match op attempt with
    | .ok a => (.ok a, attempt + 1, 0)
    | .error e =>
      match remaining with
      | 0 => (.error e, attempt + 1, 0)
      | r + 1 =>
        if !shouldRetry e then
          (.error e, attempt + 1, 0)
        else
          let rec' := retryLoop op shouldRetry delay (attempt + 1) r
          (rec'.1, rec'.2.1, delay + rec'.2.2)

/-- Translation of `CommandWrapper.withRetry` (the behaviour of the
function it returns, for one invocation): run the retry loop from
attempt 0 with `maxRetries` further attempts allowed. Source defaults
are maxRetries 3, delay 1000 and shouldRetry constantly true. -/
def withRetry {ε α : Type} (op : Nat → Except ε α) (maxRetries : Nat)
    (delay : Nat) (shouldRetry : ε → Bool) : Except ε α × Nat × Nat :=
  retryLoop op shouldRetry delay 0 maxRetries

/-- Per-check registration record of the HealthMonitor: the name, the
critical flag, and the consecutive-failure counter mutated on each run.
The probe function itself is supplied per cycle as its outcome, and the
lastCheck/lastResult bookkeeping fields carry no logic. -/
structure HealthCheck where
  name : String
  critical : Bool
  consecutiveFailures : Nat
deriving DecidableEq

/-- Value returned by a probe that did not throw; `status` is optional
because the source reads `result.status || 'healthy'` when recording
but compares the raw field when aggregating. -/
structure CheckReturn where
  status : Option String
deriving DecidableEq

/-- Outcome of invoking one probe: a returned value, or a thrown error
carrying its message. -/
def ProbeOutcome : Type := Except String CheckReturn

/-- Accumulated report of one `runHealthChecks` cycle: the overall
status string, the recorded per-check statuses in run order, and the
names pushed onto the criticalIssues and warnings lists. -/
structure Report where
  overall : String
  checks : List (String × String)
  criticalIssues : List String
  warnings : List String
deriving DecidableEq

/-- Initial report of a cycle, as built at the top of
`runHealthChecks`: overall starts at healthy with all lists empty. -/
def initialReport : Report :=
  { overall := "healthy", checks := [], criticalIssues := [], warnings := [] }

/-- One iteration of the `runHealthChecks` loop for a single check.
When the probe returns, its status is recorded (defaulting to healthy),
the critical condition `status === 'critical' or (check.critical and
status !== 'healthy')` forces overall critical, otherwise a warning
status raises overall from healthy to warning; the consecutive-failure
counter resets to 0 exactly on a healthy status and increments
otherwise. When the probe throws, the check is recorded at error
status, pushed onto criticalIssues, overall becomes critical, and the
check record is left untouched (the tracking updates sit inside the
try block of the source). -/
def runStep (r : Report) (c : HealthCheck) (o : Except String CheckReturn) :
    Report × HealthCheck :=
  match o with
  | .ok result =>
    let r1 : Report :=
      { r with checks := r.checks ++ [(c.name, result.status.getD "healthy")] }
    let r2 : Report :=
      if result.status == some "critical"
          || (c.critical && result.status != some "healthy") then
        { r1 with
          criticalIssues := r1.criticalIssues ++ [c.name]
          overall := "critical" }
      else if result.status == some "warning" then
        { r1 with
          warnings := r1.warnings ++ [c.name]
          overall := if r1.overall == "healthy" then "warning" else r1.overall }
      else
        r1
    (r2,
      { c with
        consecutiveFailures :=
          if result.status == some "healthy" then 0
          else c.consecutiveFailures + 1 })
  | .error _ =>
    ({ r with
        checks := r.checks ++ [(c.name, "error")]
        criticalIssues := r.criticalIssues ++ [c.name]
        overall := "critical" },
      c)

/-- The `runHealthChecks` loop over the registered checks, threading
the report and accumulating the updated check records in order. -/
def runAll (r : Report) (done : List HealthCheck) :
    List (HealthCheck × Except String CheckReturn) →
      Report × List HealthCheck
  | [] => (r, done)
  | (c, o) :: rest =>
    let p := runStep r c o
    runAll p.1 (done ++ [p.2]) rest

/-- Translation of `HealthMonitor.runHealthChecks`: each registered
check is paired with the outcome its probe produced this cycle; the
result is the cycle report together with the updated check records. -/
def runHealthChecks
    (checks : List (HealthCheck × Except String CheckReturn)) :
    Report × List HealthCheck :=
  runAll initialReport [] checks

/-- Numeric rank of an overall status, for stating that aggregation
only ever raises the status: healthy 0, warning 1, critical 2. -/
def statusRank (s : String) : Nat :=
  if s == "critical" then 2 else if s == "warning" then 1 else 0

/-- The overall field of a report only ever holds one of the three
status strings. -/
def overallOK (r : Report) : Prop :=
  r.overall = "healthy" ∨ r.overall = "warning" ∨ r.overall = "critical"

/-- Spec-side statement of the per-check counter update, used to compare
the cycle against the amended claim: a returned status resets the
consecutive-failure counter to zero exactly on healthy and increments it
otherwise, while a thrown probe leaves the check record unchanged. -/
def specCheckUpdate (c : HealthCheck) :
    Except String CheckReturn → HealthCheck
  | .ok res =>
    { c with
      consecutiveFailures :=
        if res.status == some "healthy" then 0
        else c.consecutiveFailures + 1 }
  | .error _ => c

/-- Spec-side statement of the recorded per-check report entry: the
returned status (defaulted to healthy) on a normal return, and the
error status when the probe threw. -/
def specRecordedStatus (c : HealthCheck) :
    Except String CheckReturn → String × String
  | .ok res => (c.name, res.status.getD "healthy")
  | .error _ => (c.name, "error")

/-- Fingerprint as the specification describes it, for comparison with
the derivations in the code: context tag, severity and the first 50
characters of the message, colon separated. -/
def specFingerprint (context severity message : String) : String :=
  context ++ ":" ++ severity ++ ":" ++ message.take 50

/-- Concrete tracker state with one hundred distinct single-character
keys, used to exercise the eviction boundary. -/
def sampleFullTracker : List (String × ContextData) :=
  (List.range 100).map
    (fun i => (String.mk [Char.ofNat (48 + i)], ⟨"t", "c", "s"⟩))

set_option maxRecDepth 10000
set_option maxHeartbeats 1000000

/-! Helper lemmas about the JS-Map model. -/

theorem jsMapSet_lookup_self {α : Type} (m : List (String × α)) (k : String)
    (v : α) : (jsMapSet m k v).lookup k = some v := by
  induction m with
  | nil => simp [jsMapSet]
  | cons a t ih =>
    obtain ⟨a1, a2⟩ := a
    by_cases h1 : a1 = k
    · subst h1
      simp [jsMapSet, List.lookup]
    · have h1' : (k == a1) = false := by
        simp only [beq_eq_false_iff_ne, ne_eq]
        exact fun h => h1 h.symm
      by_cases h2 : t.any (fun p => p.1 == k)
      · simpa [jsMapSet, List.lookup, h1, h1', h2] using ih
      · simpa [jsMapSet, List.lookup, h1, h1', h2] using ih

theorem jsMapGetD_set_self (m : List (String × Nat)) (k : String) (v : Nat) :
    jsMapGetD (jsMapSet m k v) k = v := by
  simp [jsMapGetD, jsMapSet_lookup_self]

/-- C2: every error handled in the database domain is assigned severity
critical, whatever its message or code. -/
theorem database_domain_always_critical (e : JsError) :
    handlerSeverity e Domain.database = Severity.critical := rfl

/-- C5 counterexample: a platform-API error with the missing-permissions
code 50013 is classified critical, not high, by the platform-api path,
so the claim that this path yields high (and agrees with the command
path) fails. -/
theorem platformApi_code50013_not_high :
    handlerSeverity ⟨"Error", "Missing permissions", some (.num 50013)⟩
        Domain.platformApi = Severity.critical ∧
      handlerSeverity ⟨"Error", "Missing permissions", some (.num 50013)⟩
        Domain.platformApi ≠ Severity.high := by
  exact ⟨rfl, by decide⟩

/-- C5 amended: for an error with code 50013 and message Missing
permissions, the platform-api path yields critical while the command
path yields high via the generic text rule; the two classification
paths disagree on this input. -/
theorem code50013_paths_disagree (e : JsError)
    (hm : e.message = "Missing permissions")
    (hc : e.code = some (.num 50013)) :
    handlerSeverity e Domain.platformApi = Severity.critical ∧
      handlerSeverity e Domain.command = Severity.high ∧
      handlerSeverity e Domain.platformApi ≠ handlerSeverity e Domain.command := by
  obtain ⟨n, msg, code⟩ := e
  simp only at hm hc
  subst hm
  subst hc
  have hp : handlerSeverity ⟨n, "Missing permissions", some (.num 50013)⟩
      Domain.platformApi = Severity.critical := rfl
  have hcmd : handlerSeverity ⟨n, "Missing permissions", some (.num 50013)⟩
      Domain.command = Severity.high := rfl
  exact ⟨hp, hcmd, by rw [hp, hcmd]; decide⟩

/-- C5 amended witness at a concrete error. -/
theorem code50013_paths_disagree_witness :
    handlerSeverity ⟨"Error", "Missing permissions", some (.num 50013)⟩
        Domain.platformApi = Severity.critical ∧
      handlerSeverity ⟨"Error", "Missing permissions", some (.num 50013)⟩
        Domain.command = Severity.high ∧
      handlerSeverity ⟨"Error", "Missing permissions", some (.num 50013)⟩
          Domain.platformApi ≠
        handlerSeverity ⟨"Error", "Missing permissions", some (.num 50013)⟩
          Domain.command :=
  code50013_paths_disagree ⟨"Error", "Missing permissions", some (.num 50013)⟩
    rfl rfl

/-! Retry executor lemmas. -/

theorem retryLoop_attempts_le {ε α : Type} (op : Nat → Except ε α)
    (sr : ε → Bool) (delay : Nat) :
    ∀ remaining attempt,
      (retryLoop op sr delay attempt remaining).2.1 ≤ attempt + remaining + 1 := by
  intro remaining
  induction remaining with
  | zero =>
    intro attempt
    rw [retryLoop.eq_def]
    cases hop : op attempt <;> simp [hop]
  | succ r ih =>
    intro attempt
    rw [retryLoop.eq_def]
    cases hop : op attempt with
    | ok a => simp [hop]
    | error e =>
      by_cases hsr : sr e
      · have := ih (attempt + 1)
        simp [hop, hsr]
        omega
      · simp [hop, hsr]

theorem retryLoop_always_fails {ε α : Type} (op : Nat → Except ε α)
    (sr : ε → Bool) (delay : Nat) (errOf : Nat → ε)
    (hop : ∀ n, op n = .error (errOf n)) (hsr : ∀ n, sr (errOf n) = true) :
    ∀ remaining attempt,
      retryLoop op sr delay attempt remaining =
        (.error (errOf (attempt + remaining)), attempt + remaining + 1,
          remaining * delay) := by
  intro remaining
  induction remaining with
  | zero =>
    intro attempt
    rw [retryLoop.eq_def]
    simp [hop attempt]
  | succ r ih =>
    intro attempt
    rw [retryLoop.eq_def]
    simp only [hop attempt, hsr attempt, Bool.not_true]
    rw [ih (attempt + 1)]
    have harg : attempt + 1 + r = attempt + (r + 1) := by omega
    simp [Prod.ext_iff, harg, Nat.succ_mul]
    ring

/-- C3: withRetry performs at most maxRetries plus one attempts; an
operation that always fails retryably is attempted exactly
maxRetries plus one times with the final error propagated and one
fixed delay waited between consecutive attempts; and when shouldRetry
rejects the first failure the error propagates after exactly one
attempt with no delay at all. -/
theorem withRetry_attempts {ε α : Type} (op : Nat → Except ε α)
    (sr : ε → Bool) (delay maxRetries : Nat) (errOf : Nat → ε) (e0 : ε) :
    ((withRetry op maxRetries delay sr).2.1 ≤ maxRetries + 1)
    ∧ ((∀ n, op n = .error (errOf n)) → (∀ n, sr (errOf n) = true) →
        withRetry op maxRetries delay sr
          = (.error (errOf maxRetries), maxRetries + 1, maxRetries * delay))
    ∧ (op 0 = .error e0 → sr e0 = false →
        withRetry op maxRetries delay sr = (.error e0, 1, 0)) := by
  refine ⟨?_, ?_, ?_⟩
  · have := retryLoop_attempts_le op sr delay maxRetries 0
    simpa [withRetry] using this
  · intro hop hsr
    have := retryLoop_always_fails op sr delay errOf hop hsr maxRetries 0
    simpa [withRetry] using this
  · intro hop0 hsr0
    cases maxRetries with
    | zero => simp [withRetry, retryLoop, hop0]
    | succ r => simp [withRetry, retryLoop, hop0, hsr0]

/-- C3 witness: with maxRetries 3 and an always-failing retryable
operation there are exactly 4 attempts and the final error propagates;
with shouldRetry rejecting the first failure there is exactly 1 attempt
and zero delay. -/
theorem withRetry_attempts_witness :
    (withRetry (fun n => (Except.error n : Except Nat Nat)) 3 1000
        (fun _ => true) = (.error 3, 4, 3000))
    ∧ (withRetry (fun n => (Except.error n : Except Nat Nat)) 3 1000
        (fun _ => false) = (.error 0, 1, 0)) := by
  constructor
  · have := (withRetry_attempts (fun n => (Except.error n : Except Nat Nat))
      (fun _ => true) 1000 3 (fun n => n) 0).2.1 (fun _ => rfl) (fun _ => rfl)
    simpa using this
  · exact (withRetry_attempts (fun n => (Except.error n : Except Nat Nat))
      (fun _ => false) 1000 3 (fun n => n) 0).2.2 rfl rfl

/-! Health-check aggregation lemmas. -/

theorem statusRank_le_two (s : String) : statusRank s ≤ 2 := by
  unfold statusRank
  split
  · exact le_refl 2
  · split <;> omega

theorem runStep_overall_mono (r : Report) (c : HealthCheck)
    (o : Except String CheckReturn) :
    statusRank r.overall ≤ statusRank (runStep r c o).1.overall := by
  cases o with
  | error m =>
    have h3 : (runStep r c (.error m)).1.overall = "critical" := rfl
    rw [h3]
    exact statusRank_le_two r.overall
  | ok res =>
    simp only [runStep]
    split
    · exact statusRank_le_two r.overall
    · split
      · by_cases hh : r.overall == "healthy"
        · have : r.overall = "healthy" := by simpa using hh
          simp [this, statusRank]
        · simp [hh]
      · simp

theorem runStep_overallOK (r : Report) (c : HealthCheck)
    (o : Except String CheckReturn) (h : overallOK r) :
    overallOK (runStep r c o).1 := by
  cases o with
  | error m => simp [runStep, overallOK]
  | ok res =>
    simp only [runStep]
    split
    · simp [overallOK]
    · split
      · by_cases hh : r.overall == "healthy"
        · simp [hh, overallOK]
        · simpa [hh, overallOK] using h
      · exact h

theorem runStep_crit_persist (r : Report) (c : HealthCheck)
    (o : Except String CheckReturn) (h : r.overall = "critical") :
    (runStep r c o).1.overall = "critical" := by
  cases o with
  | error m => simp [runStep]
  | ok res =>
    simp only [runStep]
    split
    · simp
    · split
      · simp [h]
      · exact h

theorem runStep_warn_trigger (r : Report) (c : HealthCheck)
    (res : CheckReturn) (hst : res.status = some "warning")
    (hOK : overallOK r) :
    1 ≤ statusRank (runStep r c (.ok res)).1.overall := by
  simp only [runStep]
  split
  · simp [statusRank]
  · next hnc =>
    by_cases hh : r.overall == "healthy"
    · simp [hst, hh, statusRank]
    · have : r.overall = "warning" ∨ r.overall = "critical" := by
        rcases hOK with h1 | h1 | h1
        · exact absurd h1 (by simpa using hh)
        · exact Or.inl h1
        · exact Or.inr h1
      rcases this with h1 | h1 <;> simp [hst, hh, h1, statusRank]

theorem runStep_crit_trigger (r : Report) (c : HealthCheck)
    (o : Except String CheckReturn)
    (h : (∃ res, o = .ok res ∧
            (res.status = some "critical" ∨
              (c.critical = true ∧ res.status ≠ some "healthy")))
          ∨ (∃ m, o = .error m)) :
    (runStep r c o).1.overall = "critical" := by
  rcases h with ⟨res, ho, hres⟩ | ⟨m, ho⟩
  · subst ho
    simp only [runStep]
    split
    · simp
    · next hnc =>
      exfalso
      apply hnc
      rcases hres with h1 | ⟨h1, h2⟩
      · simp [h1]
      · simp [h1, h2]
  · subst ho
    simp [runStep]

theorem runAll_overall_mono (l : List (HealthCheck × Except String CheckReturn)) :
    ∀ r done, statusRank r.overall ≤ statusRank (runAll r done l).1.overall := by
  induction l with
  | nil => intro r done; simp [runAll]
  | cons hd tl ih =>
    intro r done
    obtain ⟨c, o⟩ := hd
    simp only [runAll]
    exact le_trans (runStep_overall_mono r c o) (ih _ _)

theorem runAll_overallOK (l : List (HealthCheck × Except String CheckReturn)) :
    ∀ r done, overallOK r → overallOK (runAll r done l).1 := by
  induction l with
  | nil => intro r done h; simpa [runAll] using h
  | cons hd tl ih =>
    intro r done h
    obtain ⟨c, o⟩ := hd
    simp only [runAll]
    exact ih _ _ (runStep_overallOK r c o h)

theorem runAll_crit_persist (l : List (HealthCheck × Except String CheckReturn)) :
    ∀ r done, r.overall = "critical" → (runAll r done l).1.overall = "critical" := by
  induction l with
  | nil => intro r done h; simpa [runAll] using h
  | cons hd tl ih =>
    intro r done h
    obtain ⟨c, o⟩ := hd
    simp only [runAll]
    exact ih _ _ (runStep_crit_persist r c o h)

theorem rank_one_of_overallOK (r : Report) (h : overallOK r)
    (h1 : 1 ≤ statusRank r.overall) :
    r.overall = "warning" ∨ r.overall = "critical" := by
  rcases h with h2 | h2 | h2
  · simp [h2, statusRank] at h1
  · exact Or.inl h2
  · exact Or.inr h2

theorem runAll_mem_warn (l : List (HealthCheck × Except String CheckReturn)) :
    ∀ r done, overallOK r →
      (∀ c res, (c, Except.ok res) ∈ l → res.status = some "warning" →
        1 ≤ statusRank (runAll r done l).1.overall) := by
  induction l with
  | nil => intro r done _ c res hmem; simp at hmem
  | cons hd tl ih =>
    intro r done hOK c res hmem hst
    rcases List.mem_cons.mp hmem with heq | htl
    · obtain ⟨c0, o0⟩ := hd
      injection heq with h1 h2
      subst h1
      subst h2
      simp only [runAll]
      exact le_trans (runStep_warn_trigger r c res hst hOK)
        (runAll_overall_mono tl _ _)
    · obtain ⟨c0, o0⟩ := hd
      simp only [runAll]
      exact ih _ _ (runStep_overallOK r c0 o0 hOK) c res htl hst

theorem runAll_mem_crit (l : List (HealthCheck × Except String CheckReturn)) :
    ∀ r done c o, (c, o) ∈ l →
      ((∃ res, o = .ok res ∧
          (res.status = some "critical" ∨
            (c.critical = true ∧ res.status ≠ some "healthy")))
        ∨ (∃ m, o = .error m)) →
      (runAll r done l).1.overall = "critical" := by
  induction l with
  | nil => intro r done c o hmem; simp at hmem
  | cons hd tl ih =>
    intro r done c o hmem htrig
    rcases List.mem_cons.mp hmem with heq | htl
    · obtain ⟨c0, o0⟩ := hd
      injection heq with h1 h2
      subst h1
      subst h2
      simp only [runAll]
      exact runAll_crit_persist tl _ _ (runStep_crit_trigger r c o htrig)
    · obtain ⟨c0, o0⟩ := hd
      simp only [runAll]
      exact ih _ _ c o htl htrig

/-- C4: a health-check cycle's overall status starts at healthy; any
check whose probe returns warning raises overall to at least warning;
any check returning critical, any probe that throws, and any
critical-flagged check returning a non-healthy status force overall to
critical; in particular one critical-flagged check at warning together
with one unflagged check at critical yields overall critical. -/
theorem healthReport_overall_aggregation :
    ((runHealthChecks []).1.overall = "healthy")
    ∧ (∀ (checks : List (HealthCheck × Except String CheckReturn))
        (c : HealthCheck) (res : CheckReturn),
        (c, Except.ok res) ∈ checks → res.status = some "warning" →
        1 ≤ statusRank (runHealthChecks checks).1.overall)
    ∧ (∀ (checks : List (HealthCheck × Except String CheckReturn))
        (c : HealthCheck) (o : Except String CheckReturn),
        (c, o) ∈ checks →
        ((∃ res, o = .ok res ∧
            (res.status = some "critical" ∨
              (c.critical = true ∧ res.status ≠ some "healthy")))
          ∨ (∃ m, o = .error m)) →
        (runHealthChecks checks).1.overall = "critical")
    ∧ ((runHealthChecks [(⟨"a", true, 0⟩, .ok ⟨some "warning"⟩),
          (⟨"b", false, 0⟩, .ok ⟨some "critical"⟩)]).1.overall = "critical") := by
  refine ⟨rfl, ?_, ?_, rfl⟩
  · intro checks c res hmem hst
    exact runAll_mem_warn checks initialReport [] (Or.inl rfl) c res hmem hst
  · intro checks c o hmem htrig
    exact runAll_mem_crit checks initialReport [] c o hmem htrig

/-- C4 witness: instances of the aggregation rules at concrete check
lists, with the membership and status hypotheses discharged. -/
theorem healthReport_overall_aggregation_witness :
    (1 ≤ statusRank
      (runHealthChecks [(⟨"w", false, 0⟩, .ok ⟨some "warning"⟩)]).1.overall)
    ∧ ((runHealthChecks [(⟨"e", false, 2⟩, .error "boom")]).1.overall
        = "critical")
    ∧ ((runHealthChecks [(⟨"c", true, 0⟩, .ok ⟨some "warning"⟩)]).1.overall
        = "critical") := by
  refine ⟨?_, ?_, ?_⟩
  · exact healthReport_overall_aggregation.2.1 _ ⟨"w", false, 0⟩ ⟨some "warning"⟩
      (by simp) rfl
  · exact healthReport_overall_aggregation.2.2.1 _ ⟨"e", false, 2⟩
      (.error "boom") (by simp) (Or.inr ⟨"boom", rfl⟩)
  · exact healthReport_overall_aggregation.2.2.1 _ ⟨"c", true, 0⟩
      (.ok ⟨some "warning"⟩) (by simp)
      (Or.inl ⟨⟨some "warning"⟩, rfl, Or.inr ⟨rfl, by decide⟩⟩)

theorem runStep_snd (r : Report) (c : HealthCheck)
    (o : Except String CheckReturn) :
    (runStep r c o).2 = specCheckUpdate c o := by
  cases o <;> rfl

theorem runStep_checks (r : Report) (c : HealthCheck)
    (o : Except String CheckReturn) :
    (runStep r c o).1.checks = r.checks ++ [specRecordedStatus c o] := by
  cases o with
  | error m => rfl
  | ok res =>
    simp only [runStep, specRecordedStatus]
    split
    · rfl
    · split
      · rfl
      · rfl

theorem runAll_snd_accum (l : List (HealthCheck × Except String CheckReturn)) :
    ∀ r done, (runAll r done l).2
      = done ++ l.map (fun p => specCheckUpdate p.1 p.2) := by
  induction l with
  | nil => intro r done; simp [runAll]
  | cons hd tl ih =>
    intro r done
    obtain ⟨c, o⟩ := hd
    simp only [runAll, List.map_cons]
    rw [ih, runStep_snd]
    simp

theorem runAll_checks_accum
    (l : List (HealthCheck × Except String CheckReturn)) :
    ∀ r done, (runAll r done l).1.checks
      = r.checks ++ l.map (fun p => specRecordedStatus p.1 p.2) := by
  induction l with
  | nil => intro r done; simp [runAll]
  | cons hd tl ih =>
    intro r done
    obtain ⟨c, o⟩ := hd
    simp only [runAll, List.map_cons]
    rw [ih, runStep_checks]
    simp

/-- C6 counterexample: a critical-flagged check with
consecutiveFailures 5 whose probe throws is recorded at error status,
but its consecutiveFailures counter stays 5 instead of being
incremented to 6, refuting the claimed increment on a thrown probe. -/
theorem probe_throw_keeps_consecutiveFailures :
    ((runHealthChecks [(⟨"db", true, 5⟩, .error "boom")]).1.checks
        = [("db", "error")])
    ∧ ((runHealthChecks [(⟨"db", true, 5⟩, .error "boom")]).2
        = [⟨"db", true, 5⟩])
    ∧ ¬ ((runHealthChecks [(⟨"db", true, 5⟩, .error "boom")]).2
        = [⟨"db", true, 6⟩]) :=
  ⟨rfl, rfl, by decide⟩

/-- C6 amended: on each cycle every check whose probe throws is
recorded at error status with its check record, including the
consecutive-failure counter, left unchanged; every check whose probe
returns has its counter reset to 0 exactly when the status is healthy
and incremented otherwise, and its returned status (defaulted to
healthy) recorded. -/
theorem healthChecks_per_check_update
    (checks : List (HealthCheck × Except String CheckReturn)) :
    (runHealthChecks checks).2
        = checks.map (fun p => specCheckUpdate p.1 p.2)
    ∧ (runHealthChecks checks).1.checks
        = checks.map (fun p => specRecordedStatus p.1 p.2) := by
  constructor
  · simpa using runAll_snd_accum checks initialReport []
  · simpa [initialReport] using runAll_checks_accum checks initialReport []

/-! Tracker lemmas. -/

theorem any_key_eq_false_of_not_mem {α : Type} (m : List (String × α))
    (k : String) (h : k ∉ m.map Prod.fst) :
    m.any (fun p => p.1 == k) = false := by
  rw [List.any_eq_false]
  intro p hp
  simp only [beq_iff_eq]
  intro heq
  exact h (List.mem_map.mpr ⟨p, hp, heq⟩)

theorem jsMapSet_length_le {α : Type} (m : List (String × α)) (k : String)
    (v : α) : (jsMapSet m k v).length ≤ m.length + 1 := by
  by_cases hany : m.any (fun p => p.1 == k) <;> simp [jsMapSet, hany]

theorem trackErrorContext_length_le (m : List (String × ContextData))
    (e : JsError) (d : ContextData) (h : m.length ≤ 100) :
    (trackErrorContext m e d).length ≤ 100 := by
  have hset := jsMapSet_length_le m (trackKey e) d
  simp only [trackErrorContext]
  split_ifs with hbig
  · rcases hmm : jsMapSet m (trackKey e) d with _ | ⟨⟨fk, fv⟩, t⟩
    · simp
    · show (jsMapDelete ((fk, fv) :: t) fk).length ≤ 100
      have hdel : (jsMapDelete ((fk, fv) :: t) fk).length ≤ t.length := by
        simp only [jsMapDelete, List.filter_cons]
        have : ((fk, fv).1 != fk) = false := by simp
        rw [this]
        exact List.length_filter_le _ t
      have hlen : t.length + 1 ≤ m.length + 1 := by
        rw [hmm] at hset
        simpa using hset
      omega
  · omega

theorem filter_ne_key_eq_self {α : Type} (t : List (String × α)) (k : String)
    (h : k ∉ t.map Prod.fst) : t.filter (fun p => p.1 != k) = t := by
  rw [List.filter_eq_self]
  intro p hp
  simp only [bne_iff_ne, ne_eq]
  intro heq
  exact h (List.mem_map.mpr ⟨p, hp, heq⟩)

theorem trackErrorContext_evicts_oldest (m : List (String × ContextData))
    (e : JsError) (d : ContextData) (h100 : m.length = 100)
    (hnd : (m.map Prod.fst).Nodup) (hnew : trackKey e ∉ m.map Prod.fst) :
    trackErrorContext m e d = m.tail ++ [(trackKey e, d)] := by
  have hany := any_key_eq_false_of_not_mem m (trackKey e) hnew
  cases m with
  | nil => simp at h100
  | cons hd t =>
    obtain ⟨fk, fv⟩ := hd
    have hset : jsMapSet ((fk, fv) :: t) (trackKey e) d
        = (fk, fv) :: (t ++ [(trackKey e, d)]) := by
      simp [jsMapSet, hany]
    simp only [trackErrorContext, hset]
    have hlen : ((fk, fv) :: (t ++ [(trackKey e, d)])).length = 101 := by
      simp at h100
      simp [h100]
    rw [if_pos (by rw [hlen]; omega)]
    simp only [jsMapDelete, List.filter_cons]
    have hhd : ((fk, fv).1 != fk) = false := by simp
    rw [hhd]
    have hfk_t : fk ∉ t.map Prod.fst := by
      simp only [List.map_cons, List.nodup_cons] at hnd
      exact hnd.1
    have hk_t : trackKey e ∉ t.map Prod.fst := by
      intro hmem
      exact hnew (by simp [hmem])
    have hk_fk : trackKey e ≠ fk := by
      intro hEq
      exact hnew (by simp [hEq])
    rw [List.filter_append]
    rw [filter_ne_key_eq_self t fk hfk_t]
    simp [hk_fk]

/-- C7: the tracker never exceeds its 100-entry cap, and recording an
error with a fresh fingerprint into a full tracker evicts exactly the
insertion-oldest entry, leaving the remaining 99 entries untouched and
appending the new one. -/
theorem tracker_capacity_and_eviction (m : List (String × ContextData))
    (e : JsError) (d : ContextData) :
    (m.length ≤ 100 → (trackErrorContext m e d).length ≤ 100)
    ∧ (m.length = 100 → (m.map Prod.fst).Nodup →
        trackKey e ∉ m.map Prod.fst →
        trackErrorContext m e d = m.tail ++ [(trackKey e, d)]) :=
  ⟨trackErrorContext_length_le m e d,
    fun h100 hnd hnew => trackErrorContext_evicts_oldest m e d h100 hnd hnew⟩

/-- C7 witness: a full tracker of 100 distinct fingerprints stays at
100 entries and, on recording a fresh fingerprint, drops exactly its
oldest entry and appends the new one. -/
theorem tracker_capacity_and_eviction_witness :
    ((trackErrorContext sampleFullTracker ⟨"E", "boom", none⟩
        ⟨"t2", "c2", "s2"⟩).length ≤ 100)
    ∧ (trackErrorContext sampleFullTracker ⟨"E", "boom", none⟩
        ⟨"t2", "c2", "s2"⟩
      = sampleFullTracker.tail ++ [(trackKey ⟨"E", "boom", none⟩,
          ⟨"t2", "c2", "s2"⟩)]) :=
  ⟨(tracker_capacity_and_eviction sampleFullTracker ⟨"E", "boom", none⟩
      ⟨"t2", "c2", "s2"⟩).1 (by decide),
    (tracker_capacity_and_eviction sampleFullTracker ⟨"E", "boom", none⟩
      ⟨"t2", "c2", "s2"⟩).2 (by decide) (by decide) (by decide)⟩

theorem trackErrorContext_nil (e : JsError) (d : ContextData) :
    trackErrorContext [] e d = [(trackKey e, d)] := by
  have hset : jsMapSet ([] : List (String × ContextData)) (trackKey e) d
      = [(trackKey e, d)] := by
    simp [jsMapSet]
  simp only [trackErrorContext, hset]
  norm_num

theorem trackErrorContext_singleton (e : JsError) (d0 d : ContextData) :
    trackErrorContext [(trackKey e, d0)] e d = [(trackKey e, d)] := by
  have hset : jsMapSet [(trackKey e, d0)] (trackKey e) d
      = [(trackKey e, d)] := by
    simp [jsMapSet]
  simp only [trackErrorContext, hset]
  norm_num

theorem trackN_single_entry (e : JsError) (ds : Nat → ContextData) :
    ∀ n, 1 ≤ n → trackN e ds n = [(trackKey e, ds (n - 1))] := by
  intro n
  induction n with
  | zero => intro h; omega
  | succ k ih =>
    intro _
    cases k with
    | zero =>
      have hstep : trackN e ds 1 = trackErrorContext [] e (ds 0) := rfl
      rw [hstep, trackErrorContext_nil]
    | succ j =>
      have hk : 1 ≤ j + 1 := by omega
      have hstep : trackN e ds (j + 1 + 1)
          = trackErrorContext (trackN e ds (j + 1)) e (ds (j + 1)) := rfl
      rw [hstep, ih hk, trackErrorContext_singleton]
      simp

/-- C8: recording n events that share one fingerprint, for n at least
one, leaves exactly one tracker entry carrying the data of the most
recent call, the reported totalErrors is then 1, and in general the
totalErrors statistic equals the number of stored entries, which is the
number of distinct fingerprints, never the raw call count. -/
theorem tracker_same_fingerprint_idempotent (e : JsError)
    (ds : Nat → ContextData) (n : Nat) (h : 1 ≤ n) :
    trackN e ds n = [(trackKey e, ds (n - 1))]
    ∧ (getErrorStats (trackN e ds n)).totalErrors = 1
    ∧ ∀ m : List (String × ContextData),
        (getErrorStats m).totalErrors = m.length := by
  have h1 := trackN_single_entry e ds n h
  refine ⟨h1, ?_, fun m => rfl⟩
  rw [h1]
  rfl

/-- C8 witness: three records of one fingerprint leave a single entry
holding the third payload, and the stats count one tracked error. -/
theorem tracker_same_fingerprint_idempotent_witness :
    trackN ⟨"E", "m", none⟩ (fun i => ⟨Nat.repr i, "c", "s"⟩) 3
        = [(trackKey ⟨"E", "m", none⟩, ⟨Nat.repr 2, "c", "s"⟩)]
    ∧ (getErrorStats (trackN ⟨"E", "m", none⟩
        (fun i => ⟨Nat.repr i, "c", "s"⟩) 3)).totalErrors = 1 :=
  ⟨(tracker_same_fingerprint_idempotent ⟨"E", "m", none⟩
      (fun i => ⟨Nat.repr i, "c", "s"⟩) 3 (by omega)).1,
    (tracker_same_fingerprint_idempotent ⟨"E", "m", none⟩
      (fun i => ⟨Nat.repr i, "c", "s"⟩) 3 (by omega)).2.1⟩

/-- C9 counterexample: for an error of name TypeError and message boom
occurring in context command-execution at severity high, the Throttler
key is command-execution:high:boom while the Tracker key is
TypeError:boom, so the two components do not derive the fingerprint the
same way. -/
theorem tracker_throttler_keys_differ :
    getErrorKey "boom" "command-execution" "high"
        = "command-execution:high:boom"
    ∧ trackKey ⟨"TypeError", "boom", none⟩ = "TypeError:boom"
    ∧ trackKey ⟨"TypeError", "boom", none⟩
        ≠ getErrorKey "boom" "command-execution" "high" := by
  refine ⟨by decide, by decide, by decide⟩

/-- C9 amended: the Throttler key follows the specified shape of
context tag, severity and first 50 message characters, but the Tracker
key is the error name followed by the first 50 message characters; for
every context and severity pairing there is an error on which the two
derivations disagree. -/
theorem fingerprint_derivations :
    (∀ message context severity : String,
      getErrorKey message context severity
        = specFingerprint context severity message)
    ∧ (∀ e : JsError, trackKey e = e.name ++ ":" ++ e.message.take 50)
    ∧ (∀ context severity : String, ∃ e : JsError,
        trackKey e ≠ specFingerprint context severity e.message) := by
  refine ⟨fun _ _ _ => rfl, fun _ => rfl, ?_⟩
  intro c s
  refine ⟨⟨c ++ s, "", none⟩, ?_⟩
  intro h
  have hlen := congrArg String.length h
  have h0 : ("" : String).take 50 = "" := by decide
  have h1 : (":" : String).length = 1 := by decide
  simp only [trackKey, specFingerprint, h0, String.length_append, h1] at hlen
  simp at hlen

/-! Throttler lemmas. -/

theorem handleAdminNotification_suppressed (st : LoggerState)
    (es : EmailState) (envOk tOk : Bool) (msg ctx sev : String) (now : Nat)
    (hcd : now - jsMapGetD st.lastAdminNotification (getErrorKey msg ctx sev)
      < st.adminNotificationCooldown) :
    handleAdminNotification st es envOk tOk msg ctx sev now
      = (st, es, NotifyOutcome.suppressed) := by
  simp [handleAdminNotification, hcd]

theorem handleAdminNotification_of_configured (st : LoggerState)
    (es : EmailState) (envOk tOk : Bool) (msg ctx sev : String) (now : Nat)
    (hcfg : es.isConfigured = true)
    (hcd : ¬ (now - jsMapGetD st.lastAdminNotification
        (getErrorKey msg ctx sev) < st.adminNotificationCooldown)) :
    handleAdminNotification st es envOk tOk msg ctx sev now
      = ({ st with
            errorCounts := jsMapSet st.errorCounts (getErrorKey msg ctx sev)
              (jsMapGetD st.errorCounts (getErrorKey msg ctx sev) + 1)
            lastAdminNotification := jsMapSet st.lastAdminNotification
              (getErrorKey msg ctx sev) now },
          es, NotifyOutcome.sent tOk) := by
  simp [handleAdminNotification, hcd, hcfg, EmailService.sendNotification]

theorem handleAdminNotification_sent (st : LoggerState) (es : EmailState)
    (envOk tOk : Bool) (msg ctx sev : String) (now : Nat) (d : Bool)
    (h : (handleAdminNotification st es envOk tOk msg ctx sev now).2.2
      = NotifyOutcome.sent d) :
    (handleAdminNotification st es envOk tOk msg ctx sev now).1
      = { st with
          errorCounts := jsMapSet st.errorCounts (getErrorKey msg ctx sev)
            (jsMapGetD st.errorCounts (getErrorKey msg ctx sev) + 1)
          lastAdminNotification := jsMapSet st.lastAdminNotification
            (getErrorKey msg ctx sev) now }
    ∧ (handleAdminNotification st es envOk tOk msg ctx sev now).2.1.isConfigured
        = true := by
  by_cases hcd : now - jsMapGetD st.lastAdminNotification
      (getErrorKey msg ctx sev) < st.adminNotificationCooldown
  · rw [handleAdminNotification_suppressed st es envOk tOk msg ctx sev
      now hcd] at h
    simp at h
  · cases hes : es.isConfigured with
    | true =>
      rw [handleAdminNotification_of_configured st es envOk tOk msg ctx sev
        now hes hcd]
      exact ⟨rfl, hes⟩
    | false =>
      cases henv : envOk with
      | true =>
        constructor <;>
          simp [handleAdminNotification, hcd, hes, henv,
            EmailService.initEmail, EmailService.sendNotification]
      | false =>
        simp [handleAdminNotification, hcd, hes, henv,
          EmailService.initEmail] at h

/-- C1: for a notification-eligible severity, once a notification was
dispatched through the sink at time t, a second eligible log call with
the same message, context and severity at time t2 is suppressed when
t2 - t lies below the cooldown, and dispatches through the still
configured sink (outcome sent) when t2 - t reaches the cooldown. -/
theorem maybeNotify_cooldown_window (st : LoggerState) (es : EmailState)
    (envOk tOk envOk2 tOk2 : Bool) (msg : String) (opts : ErrorOptions)
    (t t2 : Nat) (d : Bool)
    (helig : notificationEligible opts = true)
    (hdisp : (logError st es envOk tOk msg opts t).2.2
      = some (NotifyOutcome.sent d))
    (hle : t ≤ t2) :
    (t2 - t < st.adminNotificationCooldown →
      (logError (logError st es envOk tOk msg opts t).1
          (logError st es envOk tOk msg opts t).2.1
          envOk2 tOk2 msg opts t2).2.2 = some NotifyOutcome.suppressed)
    ∧ (st.adminNotificationCooldown ≤ t2 - t →
      (logError (logError st es envOk tOk msg opts t).1
          (logError st es envOk tOk msg opts t).2.1
          envOk2 tOk2 msg opts t2).2.2
        = some (NotifyOutcome.sent tOk2)) := by
  have hL : logError st es envOk tOk msg opts t
      = ((handleAdminNotification st es envOk tOk msg opts.context
            opts.severity t).1,
          (handleAdminNotification st es envOk tOk msg opts.context
            opts.severity t).2.1,
          some (handleAdminNotification st es envOk tOk msg opts.context
            opts.severity t).2.2) := by
    simp [logError, helig]
  have h2 : (handleAdminNotification st es envOk tOk msg opts.context
      opts.severity t).2.2 = NotifyOutcome.sent d := by
    rw [hL] at hdisp
    simpa using hdisp
  obtain ⟨hfst', hcfg'⟩ := handleAdminNotification_sent st es envOk tOk msg
    opts.context opts.severity t d h2
  have hfst : (logError st es envOk tOk msg opts t).1
      = { st with
          errorCounts := jsMapSet st.errorCounts
            (getErrorKey msg opts.context opts.severity)
            (jsMapGetD st.errorCounts
              (getErrorKey msg opts.context opts.severity) + 1)
          lastAdminNotification := jsMapSet st.lastAdminNotification
            (getErrorKey msg opts.context opts.severity) t } := by
    rw [hL]
    exact hfst'
  have hcfg1 : (logError st es envOk tOk msg opts t).2.1.isConfigured
      = true := by
    rw [hL]
    exact hcfg'
  have hlook : jsMapGetD
      (logError st es envOk tOk msg opts t).1.lastAdminNotification
      (getErrorKey msg opts.context opts.severity) = t := by
    rw [hfst]
    exact jsMapGetD_set_self st.lastAdminNotification _ t
  have hcool : (logError st es envOk tOk msg opts t).1.adminNotificationCooldown
      = st.adminNotificationCooldown := by
    rw [hfst]
  have hsecond : (logError (logError st es envOk tOk msg opts t).1
      (logError st es envOk tOk msg opts t).2.1 envOk2 tOk2 msg opts t2).2.2
      = some ((handleAdminNotification (logError st es envOk tOk msg opts t).1
          (logError st es envOk tOk msg opts t).2.1 envOk2 tOk2 msg
          opts.context opts.severity t2).2.2) := by
    simp [logError, helig]
  constructor
  · intro hlt
    have hcd2 : t2 - jsMapGetD
        (logError st es envOk tOk msg opts t).1.lastAdminNotification
        (getErrorKey msg opts.context opts.severity)
        < (logError st es envOk tOk msg opts t).1.adminNotificationCooldown := by
      rw [hlook, hcool]
      exact hlt
    rw [hsecond, handleAdminNotification_suppressed _ _ envOk2 tOk2 msg
      opts.context opts.severity t2 hcd2]
  · intro hge
    have hcd2 : ¬ (t2 - jsMapGetD
        (logError st es envOk tOk msg opts t).1.lastAdminNotification
        (getErrorKey msg opts.context opts.severity)
        < (logError st es envOk tOk msg opts t).1.adminNotificationCooldown) := by
      rw [hlook, hcool]
      exact not_lt.mpr hge
    rw [hsecond, handleAdminNotification_of_configured _ _ envOk2 tOk2 msg
      opts.context opts.severity t2 hcfg1 hcd2]

/-- C1 witness: from a fresh logger with a configured sink, a dispatch
at time 300000 suppresses a repeat at 300001 and dispatches again at
600000, the default cooldown being 300000 milliseconds. -/
theorem maybeNotify_cooldown_window_witness :
    (logError (logError initLoggerState ⟨true⟩ true true "boom"
        ⟨true, "critical", "general"⟩ 300000).1
      (logError initLoggerState ⟨true⟩ true true "boom"
        ⟨true, "critical", "general"⟩ 300000).2.1
      true true "boom" ⟨true, "critical", "general"⟩ 300001).2.2
      = some NotifyOutcome.suppressed
    ∧ (logError (logError initLoggerState ⟨true⟩ true true "boom"
        ⟨true, "critical", "general"⟩ 300000).1
      (logError initLoggerState ⟨true⟩ true true "boom"
        ⟨true, "critical", "general"⟩ 300000).2.1
      true true "boom" ⟨true, "critical", "general"⟩ 600000).2.2
      = some (NotifyOutcome.sent true) :=
  ⟨(maybeNotify_cooldown_window initLoggerState ⟨true⟩ true true true true
      "boom" ⟨true, "critical", "general"⟩ 300000 300001 true
      (by decide) (by decide) (by decide)).1 (by decide),
    (maybeNotify_cooldown_window initLoggerState ⟨true⟩ true true true true
      "boom" ⟨true, "critical", "general"⟩ 300000 600000 true
      (by decide) (by decide) (by decide)).2 (by decide)⟩

/-- C10: when the cooldown check passes for an eligible error, the
occurrence counter and lastNotified timestamp are committed whether or
not the sink can deliver: with an unconfigured sink the outcome is
notConfigured, with a failing transport the outcome is sent false, and
in both cases the very next occurrence of the fingerprint inside the
cooldown window is suppressed although nothing was delivered. -/
theorem cooldown_consumed_before_sink (st : LoggerState) (es : EmailState)
    (tOk envOk2 tOk2 : Bool) (msg : String) (opts : ErrorOptions)
    (t t2 : Nat)
    (helig : notificationEligible opts = true)
    (hcd : ¬ (t - jsMapGetD st.lastAdminNotification
        (getErrorKey msg opts.context opts.severity)
      < st.adminNotificationCooldown))
    (hwin : t2 - t < st.adminNotificationCooldown) :
    (es.isConfigured = false →
        (logError st es false tOk msg opts t).2.2
          = some NotifyOutcome.notConfigured
      ∧ jsMapGetD (logError st es false tOk msg opts t).1.errorCounts
            (getErrorKey msg opts.context opts.severity)
          = jsMapGetD st.errorCounts (getErrorKey msg opts.context opts.severity) + 1
      ∧ jsMapGetD
          (logError st es false tOk msg opts t).1.lastAdminNotification
            (getErrorKey msg opts.context opts.severity) = t
      ∧ (logError (logError st es false tOk msg opts t).1
          (logError st es false tOk msg opts t).2.1
          envOk2 tOk2 msg opts t2).2.2 = some NotifyOutcome.suppressed)
    ∧ (es.isConfigured = true →
        (logError st es false false msg opts t).2.2
          = some (NotifyOutcome.sent false)
      ∧ jsMapGetD (logError st es false false msg opts t).1.errorCounts
            (getErrorKey msg opts.context opts.severity)
          = jsMapGetD st.errorCounts (getErrorKey msg opts.context opts.severity) + 1
      ∧ jsMapGetD
          (logError st es false false msg opts t).1.lastAdminNotification
            (getErrorKey msg opts.context opts.severity) = t
      ∧ (logError (logError st es false false msg opts t).1
          (logError st es false false msg opts t).2.1
          envOk2 tOk2 msg opts t2).2.2 = some NotifyOutcome.suppressed) := by
  constructor
  · intro hA
    have hnc : handleAdminNotification st es false tOk msg opts.context
        opts.severity t
        = ({ st with
              errorCounts := jsMapSet st.errorCounts
                (getErrorKey msg opts.context opts.severity)
                (jsMapGetD st.errorCounts
                  (getErrorKey msg opts.context opts.severity) + 1)
              lastAdminNotification := jsMapSet st.lastAdminNotification
                (getErrorKey msg opts.context opts.severity) t },
            es, NotifyOutcome.notConfigured) := by
      simp [handleAdminNotification, hcd, hA, EmailService.initEmail]
    have hL : logError st es false tOk msg opts t
        = ({ st with
              errorCounts := jsMapSet st.errorCounts
                (getErrorKey msg opts.context opts.severity)
                (jsMapGetD st.errorCounts
                  (getErrorKey msg opts.context opts.severity) + 1)
              lastAdminNotification := jsMapSet st.lastAdminNotification
                (getErrorKey msg opts.context opts.severity) t },
            es, some NotifyOutcome.notConfigured) := by
      simp [logError, helig, hnc]
    refine ⟨by rw [hL], by rw [hL]; exact jsMapGetD_set_self _ _ _,
      by rw [hL]; exact jsMapGetD_set_self _ _ _, ?_⟩
    have hcd2 : t2 - jsMapGetD
        (logError st es false tOk msg opts t).1.lastAdminNotification
        (getErrorKey msg opts.context opts.severity)
        < (logError st es false tOk msg opts t).1.adminNotificationCooldown := by
      rw [hL]
      simpa [jsMapGetD_set_self] using hwin
    rw [show (logError (logError st es false tOk msg opts t).1
        (logError st es false tOk msg opts t).2.1 envOk2 tOk2 msg opts
        t2).2.2
        = some ((handleAdminNotification
            (logError st es false tOk msg opts t).1
            (logError st es false tOk msg opts t).2.1 envOk2 tOk2 msg
            opts.context opts.severity t2).2.2) from by simp [logError, helig]]
    rw [handleAdminNotification_suppressed _ _ envOk2 tOk2 msg opts.context
      opts.severity t2 hcd2]
  · intro hB
    have hnc := handleAdminNotification_of_configured st es false false msg
      opts.context opts.severity t hB hcd
    have hsentFalse : EmailService.sendNotification es false = false := by
      simp [EmailService.sendNotification]
    have hL : logError st es false false msg opts t
        = ({ st with
              errorCounts := jsMapSet st.errorCounts
                (getErrorKey msg opts.context opts.severity)
                (jsMapGetD st.errorCounts
                  (getErrorKey msg opts.context opts.severity) + 1)
              lastAdminNotification := jsMapSet st.lastAdminNotification
                (getErrorKey msg opts.context opts.severity) t },
            es, some (NotifyOutcome.sent false)) := by
      simp [logError, helig, hnc]
    refine ⟨by rw [hL], by rw [hL]; exact jsMapGetD_set_self _ _ _,
      by rw [hL]; exact jsMapGetD_set_self _ _ _, ?_⟩
    have hcd2 : t2 - jsMapGetD
        (logError st es false false msg opts t).1.lastAdminNotification
        (getErrorKey msg opts.context opts.severity)
        < (logError st es false false msg opts t).1.adminNotificationCooldown := by
      rw [hL]
      simpa [jsMapGetD_set_self] using hwin
    rw [show (logError (logError st es false false msg opts t).1
        (logError st es false false msg opts t).2.1 envOk2 tOk2 msg opts
        t2).2.2
        = some ((handleAdminNotification
            (logError st es false false msg opts t).1
            (logError st es false false msg opts t).2.1 envOk2 tOk2 msg
            opts.context opts.severity t2).2.2) from by simp [logError, helig]]
    rw [handleAdminNotification_suppressed _ _ envOk2 tOk2 msg opts.context
      opts.severity t2 hcd2]

/-- C10 witness: with a fresh logger at time 300000 and an eligible
high-severity error, an unconfigured sink still consumes the window
(outcome notConfigured) and a configured sink with failing transport
still consumes it (outcome sent false); both count and timestamp are
committed and the repeat at 300050 is suppressed. -/
theorem cooldown_consumed_before_sink_witness :
    ((logError initLoggerState ⟨false⟩ false true "db down"
        ⟨false, "high", "general"⟩ 300000).2.2
        = some NotifyOutcome.notConfigured
      ∧ jsMapGetD (logError initLoggerState ⟨false⟩ false true "db down"
          ⟨false, "high", "general"⟩ 300000).1.errorCounts
          (getErrorKey "db down" "general" "high")
          = jsMapGetD initLoggerState.errorCounts
              (getErrorKey "db down" "general" "high") + 1
      ∧ jsMapGetD (logError initLoggerState ⟨false⟩ false true "db down"
          ⟨false, "high", "general"⟩ 300000).1.lastAdminNotification
          (getErrorKey "db down" "general" "high") = 300000
      ∧ (logError (logError initLoggerState ⟨false⟩ false true "db down"
            ⟨false, "high", "general"⟩ 300000).1
          (logError initLoggerState ⟨false⟩ false true "db down"
            ⟨false, "high", "general"⟩ 300000).2.1
          true true "db down" ⟨false, "high", "general"⟩ 300050).2.2
          = some NotifyOutcome.suppressed)
    ∧ ((logError initLoggerState ⟨true⟩ false false "db down"
        ⟨false, "high", "general"⟩ 300000).2.2
        = some (NotifyOutcome.sent false)
      ∧ jsMapGetD (logError initLoggerState ⟨true⟩ false false "db down"
          ⟨false, "high", "general"⟩ 300000).1.errorCounts
          (getErrorKey "db down" "general" "high")
          = jsMapGetD initLoggerState.errorCounts
              (getErrorKey "db down" "general" "high") + 1
      ∧ jsMapGetD (logError initLoggerState ⟨true⟩ false false "db down"
          ⟨false, "high", "general"⟩ 300000).1.lastAdminNotification
          (getErrorKey "db down" "general" "high") = 300000
      ∧ (logError (logError initLoggerState ⟨true⟩ false false "db down"
            ⟨false, "high", "general"⟩ 300000).1
          (logError initLoggerState ⟨true⟩ false false "db down"
            ⟨false, "high", "general"⟩ 300000).2.1
          true true "db down" ⟨false, "high", "general"⟩ 300050).2.2
          = some NotifyOutcome.suppressed) :=
  ⟨(cooldown_consumed_before_sink initLoggerState ⟨false⟩ true true true
      "db down" ⟨false, "high", "general"⟩ 300000 300050
      (by decide) (by decide) (by decide)).1 rfl,
    (cooldown_consumed_before_sink initLoggerState ⟨true⟩ false true true
      "db down" ⟨false, "high", "general"⟩ 300000 300050
      (by decide) (by decide) (by decide)).2 rfl⟩

end AtomBot
